import Mathlib

/-!
Shallow embedding of the Travel-Agent-Aid backend
(src/backend/app.py, src/backend/amadeus_api.py, src/backend/sherpa_api.py).

JSON-like Python values are modelled by `Json`; Python truthiness by
`truthy`; the exceptions that the handler bodies can raise by `PyExc`.
Upstream HTTP/SDK calls are modelled by oracle functions: the embedding
records exactly which call each client function issues (as an `AmCall`
or `SherpaPayload`), and the oracle supplies the response of the external
provider, which is outside the repository.
-/

namespace TravelAgent

/-- A Python/JSON value as handled by the gateway.  Python `None` is
`Json.null`; numbers are rationals (the gateway never computes with them,
it only tests truthiness and passes them along). -/
inductive Json where
  | null : Json
  | bool (b : Bool) : Json
  | num (q : ℚ) : Json
  | str (s : String) : Json
  | arr (elems : List Json) : Json
  | obj (fields : List (String × Json)) : Json

/-- Python truthiness: `None`, `False`, `0`, `""`, `[]`, `\x7b\x7d` are falsy. -/
def truthy : Json → Bool
  | .null => false
  | .bool b => b
  | .num q => q != 0
  | .str s => s != ""
  | .arr elems => !elems.isEmpty
  | .obj fields => !fields.isEmpty

/-- Exceptions raised by the operations used in the handler bodies. -/
inductive PyExc where
  | attrError : PyExc
  | keyError : PyExc
  | typeError : PyExc
  | indexError : PyExc
  | valueError : PyExc
deriving Repr, DecidableEq

/-- Python `d.get(k)`: on a dict returns the value or `None`; on anything
else raises `AttributeError` (no `get` method). -/
def dictGet (j : Json) (k : String) : Except PyExc Json :=
  match j with
  | .obj fields => .ok ((fields.lookup k).getD .null)
  | _ => .error .attrError

/-- Python `x[0]`: first element of a list, a one-character string of a
string; `IndexError` when empty, `KeyError` on a dict (JSON keys are
strings, never the int 0), `TypeError` otherwise. -/
def index0 (j : Json) : Except PyExc Json :=
  match j with
  | .arr [] => .error .indexError
  | .arr (x :: _) => .ok x
  | .str s =>
      match s.toList with
      | [] => .error .indexError
      | c :: _ => .ok (.str (String.singleton c))
  | .obj _ => .error .keyError
  | _ => .error .typeError

/-- Python `d[k]` for a string key: value of a dict, `KeyError` when the
key is absent, `TypeError` on anything that is not a dict. -/
def subscript (j : Json) (k : String) : Except PyExc Json :=
  match j with
  | .obj fields =>
      match fields.lookup k with
      | some v => .ok v
      | none => .error .keyError
  | _ => .error .typeError

/-- Field lookup used only to state properties of response bodies. -/
def Json.field (j : Json) (k : String) : Option Json :=
  match j with
  | .obj fields => fields.lookup k
  | _ => none

/-- An HTTP response of the gateway: status code and JSON body. -/
structure Resp where
  status : Nat
  body : Json

/-- The process environment, `os.getenv`. -/
def Env : Type := String → Option String

/-- `not os.getenv(k)`: unset or empty. -/
def envMissing (env : Env) (k : String) : Bool :=
  match env k with
  | none => true
  | some s => s == ""

/-- Falsiness of `request.args.get(name)`: absent parameter (`None`) or
empty string.  This is the per-element test of `not all([...])`. -/
def blankParam : Option String → Bool
  | none => true
  | some s => s == ""

/-- Python `s.upper()`: character-wise ASCII uppercasing. -/
def pyUpper (s : String) : String := String.mk (s.data.map Char.toUpper)

/-! ## amadeus_api.py -/

/-- One call to the Amadeus SDK: which endpoint, with which parameters.
The client functions build these; the oracle answers them. -/
structure AmCall where
  endpoint : String
  params : List (String × Json)

/-- Failures of an Amadeus SDK call: `ResponseError` (with an optional
status code, 429 for rate limiting) or any other exception. -/
inductive AmErr where
  | responseError (code : Option Nat) : AmErr
  | otherError : AmErr
deriving Repr, DecidableEq

/-- The external Amadeus service: answers a call with `response.data`
or a raised error. -/
def AmOracle : Type := AmCall → Except AmErr Json

/-- `get_amadeus_client` raises `ValueError` iff `AMADEUS_CLIENT_ID` or
`AMADEUS_CLIENT_SECRET` is unset/empty (`if not client_id or not
client_secret`). -/
def amadeusCredsMissing (env : Env) : Bool :=
  envMissing env "AMADEUS_CLIENT_ID" || envMissing env "AMADEUS_CLIENT_SECRET"

/-- The flight-offers call built by `search_flights`: IATA codes are
uppercased (`origin.upper()`, `destination.upper()`). -/
def flightOffersCall (origin destination departure_date : String) (adults : ℕ) : AmCall :=
  { endpoint := "shopping.flight_offers_search"
    params := [("originLocationCode", .str (pyUpper origin)),
               ("destinationLocationCode", .str (pyUpper destination)),
               ("departureDate", .str departure_date),
               ("adults", .num adults)] }

/-- `amadeus_api.search_flights`: builds the client (a `ValueError` from
missing credentials is caught and turned into `None`), issues the call,
and returns `response.data`; every `ResponseError`/`ValueError`/other
exception is caught and becomes `None` (`Json.null`). -/
def search_flights (env : Env) (oracle : AmOracle)
    (origin destination departure_date : String) (adults : ℕ) : Json :=
  if amadeusCredsMissing env then .null
  else
    match oracle (flightOffersCall origin destination departure_date adults) with
    | .ok data => data
    | .error _ => .null

/-- The airports-by-coordinates call built by `get_nearest_airports`. -/
def airportsCall (latitude longitude : Json) : AmCall :=
  { endpoint := "reference_data.locations.airports"
    params := [("latitude", latitude), ("longitude", longitude)] }

/-- `amadeus_api.get_nearest_airports`: same catch-all structure as
`search_flights`. -/
def get_nearest_airports (env : Env) (oracle : AmOracle) (latitude longitude : Json) : Json :=
  if amadeusCredsMissing env then .null
  else
    match oracle (airportsCall latitude longitude) with
    | .ok data => data
    | .error _ => .null

/-- The hotel-offers call built by `search_hotels`: the city code is
uppercased (`city_code.upper()`). -/
def hotelOffersCall (city_code : String) : AmCall :=
  { endpoint := "shopping.hotel_offers"
    params := [("cityCode", .str (pyUpper city_code))] }

/-- `amadeus_api.search_hotels`. -/
def search_hotels (env : Env) (oracle : AmOracle) (city_code : String) : Json :=
  if amadeusCredsMissing env then .null
  else
    match oracle (hotelOffersCall city_code) with
    | .ok data => data
    | .error _ => .null

/-- `amadeus_api.search_cars`: a placeholder that performs no SDK call
and always returns `None`. -/
def search_cars (_city_code : String) : Json := .null

/-- The activities call built by `search_activities`. -/
def activitiesCall (latitude longitude : Json) : AmCall :=
  { endpoint := "shopping.activities"
    params := [("latitude", latitude), ("longitude", longitude)] }

/-- `amadeus_api.search_activities`. -/
def search_activities (env : Env) (oracle : AmOracle) (latitude longitude : Json) : Json :=
  if amadeusCredsMissing env then .null
  else
    match oracle (activitiesCall latitude longitude) with
    | .ok data => data
    | .error _ => .null

/-- The location-search call built by `search_location`. -/
def locationsCall (keyword : String) : AmCall :=
  { endpoint := "reference_data.locations"
    params := [("keyword", .str keyword), ("subType", .str "CITY,AIRPORT")] }

/-- `amadeus_api.search_location`. -/
def search_location (env : Env) (oracle : AmOracle) (keyword : String) : Json :=
  if amadeusCredsMissing env then .null
  else
    match oracle (locationsCall keyword) with
    | .ok data => data
    | .error _ => .null

/-! ## sherpa_api.py -/

/-- The payload `get_visa_requirements` posts to the Sherpa `/trips`
endpoint: the three country codes, uppercased. -/
structure SherpaPayload where
  origin : String
  destination : String
  nationality : String
deriving Repr, DecidableEq

/-- Payload construction: `countryCode` fields are `origin.upper()`,
`destination.upper()`, `nationality.upper()`. -/
def sherpaPayload (origin destination nationality : String) : SherpaPayload :=
  { origin := (pyUpper origin)
    destination := (pyUpper destination)
    nationality := (pyUpper nationality) }

/-- Failures of the Sherpa HTTP request: timeout, HTTP error with status
code, other request exception, or an unexpected exception. -/
inductive SherpaErr where
  | timeout : SherpaErr
  | httpError (code : Nat) : SherpaErr
  | reqError : SherpaErr
  | unexpected : SherpaErr
deriving Repr, DecidableEq

/-- The external Sherpa service: answers a posted payload with a JSON
body or a raised request failure. -/
def SherpaOracle : Type := SherpaPayload → Except SherpaErr Json

/-- `sherpa_api.get_visa_requirements`: raises `ValueError` when
`SHERPA_API_KEY` is unset/empty, before any network call; otherwise posts
the uppercased payload and returns the response JSON, with every request
failure caught and turned into `None`. -/
def get_visa_requirements (env : Env) (post : SherpaOracle)
    (origin destination nationality : String) : Except PyExc Json :=
  if envMissing env "SHERPA_API_KEY" then .error .valueError
  else
    match post (sherpaPayload origin destination nationality) with
    | .ok visa_data => .ok visa_data
    | .error _ => .ok .null

/-! ## app.py response bodies -/

def flightsMissingBody : Json :=
  .obj [("error", .str "Missing required parameters"),
        ("required", .arr [.str "origin", .str "destination", .str "departure_date"]),
        ("optional", .arr [.str "adults"])]

def badDateBody : Json :=
  .obj [("error", .str "Invalid date format. Use YYYY-MM-DD format")]

def flightsNoResultBody : Json :=
  .obj [("error", .str "Could not retrieve flight offers"),
        ("message", .str "No flights available for the specified route and date. Try different dates or nearby airports.")]

def internalErrorBody : Json :=
  .obj [("error", .str "Internal server error"),
        ("message", .str "An unexpected error occurred. Please try again later.")]

def airportsMissingBody : Json :=
  .obj [("error", .str "Missing required parameter: keyword"),
        ("message", .str "Please provide a location name (e.g., city or airport name)")]

def locationNotFoundBody (keyword : String) : Json :=
  .obj [("error", .str "Could not find location"),
        ("message", .str ("No location found matching \"" ++ keyword ++ "\". Try a different search term."))]

def airportsNoCoordsBody : Json :=
  .obj [("error", .str "Location found but no coordinates available"),
        ("message", .str "The location was found but geographic coordinates are not available.")]

def invalidCoordsBody : Json :=
  .obj [("error", .str "Invalid location coordinates")]

def airportsNoResultBody : Json :=
  .obj [("error", .str "Could not retrieve nearest airports"),
        ("message", .str "No airports found near the specified location.")]

def visaMissingBody : Json :=
  .obj [("error", .str "Missing required parameters"),
        ("required", .arr [.str "origin", .str "destination", .str "nationality"]),
        ("message", .str "All three parameters (origin, destination, nationality) are required. Use ISO country codes (e.g., US, FR, GB).")]

def visaCodeFormatBody : Json :=
  .obj [("error", .str "Invalid country code format"),
        ("message", .str "Country codes must be 2-letter ISO codes (e.g., US, FR, GB)")]

def visaNoResultBody : Json :=
  .obj [("error", .str "Could not retrieve visa information"),
        ("message", .str "Unable to fetch visa requirements. Please check your API key and try again.")]

def visaConfigErrorBody : Json :=
  .obj [("error", .str "Configuration error"),
        ("message", .str "Sherpa API key is not configured. Please set SHERPA_API_KEY in your environment variables.")]

def hotelsMissingBody : Json :=
  .obj [("error", .str "Missing required parameter: city_code"),
        ("message", .str "Please provide an IATA city code (e.g., NYC, PAR, LON)")]

def hotelsNoResultBody (city_code : String) : Json :=
  .obj [("error", .str "Could not retrieve hotel offers"),
        ("message", .str ("No hotels found for city code \"" ++ city_code ++ "\". Try a different city code."))]

def carsMissingBody : Json :=
  .obj [("error", .str "Missing required parameter: city_code")]

def carsNotAvailableBody : Json :=
  .obj [("error", .str "Car search not yet available")]

def activitiesMissingBody : Json :=
  .obj [("error", .str "Missing required parameter: keyword"),
        ("message", .str "Please provide a location name to search for activities")]

def activitiesNoCoordsBody : Json :=
  .obj [("error", .str "Location found but no coordinates available")]

def activitiesNoResultBody (keyword : String) : Json :=
  .obj [("error", .str "Could not retrieve activities"),
        ("message", .str ("No activities found near \"" ++ keyword ++ "\". Try a different location."))]

/-! ## app.py handlers

Each handler takes its upstream client function as an argument (in the
source they are imported module functions; the tests patch them the same
way).  The two chained handlers perform attribute/subscript operations
that can raise, so their bodies live in `Except PyExc` and the
surrounding `try/except Exception` maps a raised exception to the
internal-error 500 response. -/

/-- The `if results: 200 else: 500/501` tail shared by every dispatch. -/
def dispatch (result : Json) (errStatus : Nat) (errBody : Json) : Resp :=
  if truthy result then ⟨200, result⟩ else ⟨errStatus, errBody⟩

/-- `app.api_search_flights`. -/
def api_search_flights (sf : String → String → String → ℕ → Json)
    (origin destination departure_date : Option String) (adults : ℕ) : Resp :=
  if blankParam origin || blankParam destination || blankParam departure_date then
    ⟨400, flightsMissingBody⟩
  else
    let o := origin.getD ""
    let d := destination.getD ""
    let dd := departure_date.getD ""
    if dd.length != 10 || dd.toList.count '-' != 2 then
      ⟨400, badDateBody⟩
    else
      dispatch (sf o d dd adults) 500 flightsNoResultBody

/-- Body of `app.api_get_nearest_airports` inside its `try`. -/
def nearest_airports_core (sl : String → Json) (gna : Json → Json → Json)
    (keyword : Option String) : Except PyExc Resp :=
  if blankParam keyword then .ok ⟨400, airportsMissingBody⟩
  else
    let kw := keyword.getD ""
    let locations := sl kw
    if !truthy locations then .ok ⟨404, locationNotFoundBody kw⟩
    else
      match index0 locations with
      | .error e => .error e
      | .ok loc0 =>
        match dictGet loc0 "geoCode" with
        | .error e => .error e
        | .ok geoTest =>
          if !truthy geoTest then .ok ⟨404, airportsNoCoordsBody⟩
          else
            match subscript loc0 "geoCode" with
            | .error e => .error e
            | .ok geo_code =>
              match dictGet geo_code "latitude", dictGet geo_code "longitude" with
              | .error e, _ => .error e
              | .ok _, .error e => .error e
              | .ok latitude, .ok longitude =>
                if !truthy latitude || !truthy longitude then .ok ⟨500, invalidCoordsBody⟩
                else .ok (dispatch (gna latitude longitude) 500 airportsNoResultBody)

/-- `app.api_get_nearest_airports`: the `except Exception` wrapper. -/
def api_get_nearest_airports (sl : String → Json) (gna : Json → Json → Json)
    (keyword : Option String) : Resp :=
  match nearest_airports_core sl gna keyword with
  | .ok r => r
  | .error _ => ⟨500, internalErrorBody⟩

/-- `app.api_get_visa_requirements`: validates presence, then the
two-letter length of all three codes, then dispatches; `ValueError`
from the visa client yields the configuration-error 500, any other
exception the internal-error 500. -/
def api_get_visa_requirements (gvr : String → String → String → Except PyExc Json)
    (origin destination nationality : Option String) : Resp :=
  if blankParam origin || blankParam destination || blankParam nationality then
    ⟨400, visaMissingBody⟩
  else
    let o := origin.getD ""
    let d := destination.getD ""
    let n := nationality.getD ""
    if !(o.length == 2 && d.length == 2 && n.length == 2) then
      ⟨400, visaCodeFormatBody⟩
    else
      match gvr o d n with
      | .ok visa_info => dispatch visa_info 500 visaNoResultBody
      | .error .valueError => ⟨500, visaConfigErrorBody⟩
      | .error _ => ⟨500, internalErrorBody⟩

/-- `app.api_search_hotels`. -/
def api_search_hotels (sh : String → Json) (city_code : Option String) : Resp :=
  if blankParam city_code then ⟨400, hotelsMissingBody⟩
  else
    let c := city_code.getD ""
    dispatch (sh c) 500 (hotelsNoResultBody c)

/-- `app.api_search_cars` (no `try/except` in the source). -/
def api_search_cars (sc : String → Json) (city_code : Option String) : Resp :=
  if blankParam city_code then ⟨400, carsMissingBody⟩
  else
    let c := city_code.getD ""
    dispatch (sc c) 501 carsNotAvailableBody

/-- Body of `app.api_search_activities` inside its `try`. -/
def activities_core (sl : String → Json) (sa : Json → Json → Json)
    (keyword : Option String) : Except PyExc Resp :=
  if blankParam keyword then .ok ⟨400, activitiesMissingBody⟩
  else
    let kw := keyword.getD ""
    let locations := sl kw
    if !truthy locations then .ok ⟨404, locationNotFoundBody kw⟩
    else
      match index0 locations with
      | .error e => .error e
      | .ok loc0 =>
        match dictGet loc0 "geoCode" with
        | .error e => .error e
        | .ok geoTest =>
          if !truthy geoTest then .ok ⟨404, activitiesNoCoordsBody⟩
          else
            match subscript loc0 "geoCode" with
            | .error e => .error e
            | .ok geo_code =>
              match dictGet geo_code "latitude", dictGet geo_code "longitude" with
              | .error e, _ => .error e
              | .ok _, .error e => .error e
              | .ok latitude, .ok longitude =>
                if !truthy latitude || !truthy longitude then .ok ⟨500, invalidCoordsBody⟩
                else .ok (dispatch (sa latitude longitude) 500 (activitiesNoResultBody kw))

/-- `app.api_search_activities`: the `except Exception` wrapper. -/
def api_search_activities (sl : String → Json) (sa : Json → Json → Json)
    (keyword : Option String) : Resp :=
  match activities_core sl sa keyword with
  | .ok r => r
  | .error _ => ⟨500, internalErrorBody⟩

/-! ## Concrete fixtures (used by witnesses and counterexamples) -/

/-- The Paris coordinate pair of the spec and the test suite. -/
def parisGeo : Json :=
  .obj [("latitude", .num (488566/10000)), ("longitude", .num (23522/10000))]

def parisLocation : Json :=
  .obj [("name", .str "Paris"), ("geoCode", parisGeo)]

/-- A location search that always resolves to the Paris match. -/
def slParis : String → Json := fun _ => .arr [parisLocation]

def cdgList : Json := .arr [.obj [("name", .str "Paris CDG"), ("iataCode", .str "CDG")]]

/-- A nearby-airports search that always returns one airport. -/
def gnaCdg : Json → Json → Json := fun _ _ => cdgList

def eiffelList : Json := .arr [.obj [("name", .str "Eiffel Tower Tour")]]

/-- An activity search that always returns one activity. -/
def saEiffel : Json → Json → Json := fun _ _ => eiffelList

/-- Client stubs that always fail with `None`. -/
def sfNull : String → String → String → ℕ → Json := fun _ _ _ _ => .null

def shNull : String → Json := fun _ => .null

def slNull : String → Json := fun _ => .null

def gnaNull : Json → Json → Json := fun _ _ => .null

def flightsList : Json := .arr [.obj [("price", .str "500.00")]]

/-- A flight search that always returns one offer. -/
def sfOffers : String → String → String → ℕ → Json := fun _ _ _ _ => flightsList

def hotelsList : Json := .arr [.obj [("hotel", .str "Test Hotel")]]

def shOffers : String → Json := fun _ => hotelsList

def visaDecision : Json := .obj [("visa", .str "not required")]

/-- Visa client stubs: success, no data, raised `ValueError`. -/
def gvrOk : String → String → String → Except PyExc Json := fun _ _ _ => .ok visaDecision

def gvrNull : String → String → String → Except PyExc Json := fun _ _ _ => .ok .null

def gvrRaise : String → String → String → Except PyExc Json := fun _ _ _ => .error .valueError

/-- An environment with no variables set at all. -/
def envEmpty : Env := fun _ => none

/-- An environment in which every variable is set (non-empty). -/
def envAll : Env := fun _ => some "configured"

/-- An Amadeus service that always answers with the given data. -/
def amOracleConst (data : Json) : AmOracle := fun _ => .ok data

/-- A Sherpa service that always answers with the given decision. -/
def sherpaOracleConst (data : Json) : SherpaOracle := fun _ => .ok data

/-! ## Theorems -/

/-- A non-empty list is truthy. -/
theorem truthy_arr_cons (x : Json) (xs : List Json) : truthy (.arr (x :: xs)) = true := rfl

/-- The Paris latitude of the fixtures is truthy (non-zero). -/
theorem truthy_parisLat : truthy (Json.num (488566/10000)) = true := by
  norm_num [truthy, bne_iff_ne]

/-- The Paris longitude of the fixtures is truthy (non-zero). -/
theorem truthy_parisLon : truthy (Json.num (23522/10000)) = true := by
  norm_num [truthy, bne_iff_ne]

/-- C1: for the chained endpoints (nearest-airports, activities) with a
non-missing keyword: an empty/null location list yields 404; a first
match that is an object without a truthy geoCode yields 404; a truthy
geoCode object whose latitude or longitude is falsy or absent yields 500;
otherwise the dependent search is dispatched with exactly the first
match's latitude and longitude — no later element is consulted (the
conclusions do not depend on the tail `xs`). -/
theorem C1_chained_lookup_first_match
    (sl : String → Json) (gna sa : Json → Json → Json) (kw : String) (hkw : kw ≠ "") :
    ((sl kw = .null ∨ sl kw = .arr []) →
      (api_get_nearest_airports sl gna (some kw)).status = 404 ∧
      (api_search_activities sl sa (some kw)).status = 404)
  ∧ (∀ x xs fs, sl kw = .arr (x :: xs) → x = .obj fs →
      truthy ((fs.lookup "geoCode").getD .null) = false →
      (api_get_nearest_airports sl gna (some kw)).status = 404 ∧
      (api_search_activities sl sa (some kw)).status = 404)
  ∧ (∀ x xs fs g gfs, sl kw = .arr (x :: xs) → x = .obj fs →
      fs.lookup "geoCode" = some g → truthy g = true → g = .obj gfs →
      (truthy ((gfs.lookup "latitude").getD .null) = false ∨
       truthy ((gfs.lookup "longitude").getD .null) = false) →
      api_get_nearest_airports sl gna (some kw) = ⟨500, invalidCoordsBody⟩ ∧
      api_search_activities sl sa (some kw) = ⟨500, invalidCoordsBody⟩)
  ∧ (∀ x xs fs g gfs lat lon, sl kw = .arr (x :: xs) → x = .obj fs →
      fs.lookup "geoCode" = some g → truthy g = true → g = .obj gfs →
      gfs.lookup "latitude" = some lat → gfs.lookup "longitude" = some lon →
      truthy lat = true → truthy lon = true →
      api_get_nearest_airports sl gna (some kw)
        = dispatch (gna lat lon) 500 airportsNoResultBody ∧
      api_search_activities sl sa (some kw)
        = dispatch (sa lat lon) 500 (activitiesNoResultBody kw)) := by
  refine ⟨?_, ?_, ?_, ?_⟩
  · rintro (hsl | hsl) <;>
      simp [api_get_nearest_airports, api_search_activities, nearest_airports_core,
        activities_core, blankParam, hkw, hsl, truthy]
  · intro x xs fs hsl hx hgeo
    subst hx
    simp [api_get_nearest_airports, api_search_activities, nearest_airports_core,
      activities_core, blankParam, hkw, hsl, truthy_arr_cons, index0, dictGet, hgeo]
  · intro x xs fs g gfs hsl hx hlook hg hgobj hfalsy
    subst hx
    subst hgobj
    rcases hfalsy with hlat | hlat <;>
      simp [api_get_nearest_airports, api_search_activities, nearest_airports_core,
        activities_core, blankParam, hkw, hsl, truthy_arr_cons, index0, dictGet,
        subscript, hlook, hg, hlat]
  · intro x xs fs g gfs lat lon hsl hx hlook hg hgobj hlat hlon htlat htlon
    subst hx
    subst hgobj
    simp [api_get_nearest_airports, api_search_activities, nearest_airports_core,
      activities_core, blankParam, hkw, hsl, truthy_arr_cons, index0, dictGet,
      subscript, hlook, hg, hlat, hlon, htlat, htlon]

/-- C1 witness: the Paris fixture exercises the success branch, and an
always-failing location search the 404 branch. -/
theorem C1_chained_lookup_first_match_witness :
    api_get_nearest_airports slParis gnaCdg (some "Paris") = ⟨200, cdgList⟩ ∧
    api_search_activities slParis saEiffel (some "Paris") = ⟨200, eiffelList⟩ ∧
    (api_get_nearest_airports slNull gnaCdg (some "Paris")).status = 404 := by
  have h4 := (C1_chained_lookup_first_match slParis gnaCdg saEiffel "Paris"
      (by decide)).2.2.2
    parisLocation [] [("name", .str "Paris"), ("geoCode", parisGeo)] parisGeo
    [("latitude", .num (488566/10000)), ("longitude", .num (23522/10000))]
    (.num (488566/10000)) (.num (23522/10000)) rfl rfl rfl rfl rfl rfl rfl
    truthy_parisLat truthy_parisLon
  have h1 := (C1_chained_lookup_first_match slNull gnaCdg saEiffel "Paris"
      (by decide)).1 (Or.inl rfl)
  exact ⟨by rw [h4.1]; rfl, by rw [h4.2]; rfl, h1.1⟩

/-- C2: for every endpoint that dispatches an upstream search, an
empty/null (falsy) result of the dispatched call yields a 500 response
whose body has an `error` field; the response equals the 500 response
exactly, so a 200 is never produced from an empty/null upstream result.
For the chained endpoints the dispatched call is the dependent
nearby-search, reached after a successful location resolution. -/
theorem C2_empty_upstream_500 :
    (∀ (sf : String → String → String → ℕ → Json) (o d dd : String) (adults : ℕ),
      o ≠ "" → d ≠ "" → dd.length = 10 → dd.toList.count '-' = 2 →
      truthy (sf o d dd adults) = false →
      api_search_flights sf (some o) (some d) (some dd) adults = ⟨500, flightsNoResultBody⟩ ∧
      flightsNoResultBody.field "error" ≠ none)
  ∧ (∀ (sh : String → Json) (c : String), c ≠ "" → truthy (sh c) = false →
      api_search_hotels sh (some c) = ⟨500, hotelsNoResultBody c⟩ ∧
      (hotelsNoResultBody c).field "error" ≠ none)
  ∧ (∀ (gvr : String → String → String → Except PyExc Json) (o d n : String) (j : Json),
      o.length = 2 → d.length = 2 → n.length = 2 →
      gvr o d n = .ok j → truthy j = false →
      api_get_visa_requirements gvr (some o) (some d) (some n) = ⟨500, visaNoResultBody⟩ ∧
      visaNoResultBody.field "error" ≠ none)
  ∧ (∀ (sl : String → Json) (gna : Json → Json → Json) (kw : String)
      (xs : List Json) (fs gfs : List (String × Json)) (lat lon : Json),
      kw ≠ "" → sl kw = .arr (.obj fs :: xs) →
      List.lookup "geoCode" fs = some (.obj gfs) → truthy (.obj gfs) = true →
      List.lookup "latitude" gfs = some lat → List.lookup "longitude" gfs = some lon →
      truthy lat = true → truthy lon = true → truthy (gna lat lon) = false →
      api_get_nearest_airports sl gna (some kw) = ⟨500, airportsNoResultBody⟩ ∧
      airportsNoResultBody.field "error" ≠ none)
  ∧ (∀ (sl : String → Json) (sa : Json → Json → Json) (kw : String)
      (xs : List Json) (fs gfs : List (String × Json)) (lat lon : Json),
      kw ≠ "" → sl kw = .arr (.obj fs :: xs) →
      List.lookup "geoCode" fs = some (.obj gfs) → truthy (.obj gfs) = true →
      List.lookup "latitude" gfs = some lat → List.lookup "longitude" gfs = some lon →
      truthy lat = true → truthy lon = true → truthy (sa lat lon) = false →
      api_search_activities sl sa (some kw) = ⟨500, activitiesNoResultBody kw⟩ ∧
      (activitiesNoResultBody kw).field "error" ≠ none) := by
  refine ⟨?_, ?_, ?_, ?_, ?_⟩
  · intro sf o d dd adults ho hd hlen hcount hres
    have hdd : dd ≠ "" := by intro hc; subst hc; exact absurd hlen (by decide)
    have hcount2 : List.count '-' dd.data = 2 := hcount
    simp [api_search_flights, blankParam, ho, hd, hdd, hlen, hcount2, dispatch, hres,
      Json.field, flightsNoResultBody]
  · intro sh c hc hres
    simp [api_search_hotels, blankParam, hc, dispatch, hres, Json.field, hotelsNoResultBody]
  · intro gvr o d n j h1 h2 h3 hj hres
    have ho : o ≠ "" := by intro hc; subst hc; exact absurd h1 (by decide)
    have hd : d ≠ "" := by intro hc; subst hc; exact absurd h2 (by decide)
    have hn : n ≠ "" := by intro hc; subst hc; exact absurd h3 (by decide)
    simp [api_get_visa_requirements, blankParam, ho, hd, hn, h1, h2, h3, hj,
      dispatch, hres, Json.field, visaNoResultBody]
  · intro sl gna kw xs fs gfs lat lon hkw hsl hlook hg hlat hlon htlat htlon hres
    simp [api_get_nearest_airports, nearest_airports_core, blankParam, hkw, hsl,
      truthy_arr_cons, index0, dictGet, subscript, hlook, hg, hlat, hlon,
      htlat, htlon, dispatch, hres, Json.field, airportsNoResultBody]
  · intro sl sa kw xs fs gfs lat lon hkw hsl hlook hg hlat hlon htlat htlon hres
    simp [api_search_activities, activities_core, blankParam, hkw, hsl,
      truthy_arr_cons, index0, dictGet, subscript, hlook, hg, hlat, hlon,
      htlat, htlon, dispatch, hres, Json.field, activitiesNoResultBody]

/-- C2 witness: concrete no-data upstreams produce the 500 responses. -/
theorem C2_empty_upstream_500_witness :
    api_search_flights sfNull (some "JFK") (some "LHR") (some "2025-06-15") 1
      = ⟨500, flightsNoResultBody⟩ ∧
    api_search_hotels shNull (some "NYC") = ⟨500, hotelsNoResultBody "NYC"⟩ ∧
    api_get_visa_requirements gvrNull (some "US") (some "FR") (some "US")
      = ⟨500, visaNoResultBody⟩ ∧
    api_get_nearest_airports slParis gnaNull (some "Paris") = ⟨500, airportsNoResultBody⟩ := by
  have h := C2_empty_upstream_500
  refine ⟨(h.1 sfNull "JFK" "LHR" "2025-06-15" 1 (by decide) (by decide) (by decide)
      (by decide) rfl).1,
    (h.2.1 shNull "NYC" (by decide) rfl).1,
    (h.2.2.1 gvrNull "US" "FR" "US" .null (by decide) (by decide) (by decide) rfl rfl).1,
    (h.2.2.2.1 slParis gnaNull "Paris" [] [("name", .str "Paris"), ("geoCode", parisGeo)]
      [("latitude", .num (488566/10000)), ("longitude", .num (23522/10000))]
      (.num (488566/10000)) (.num (23522/10000)) (by decide) rfl rfl rfl rfl rfl
      truthy_parisLat truthy_parisLon rfl).1⟩

/-- C3: a truthy (non-empty, non-null) upstream result is passed through
unchanged with a 200 status on every endpoint; for the chained endpoints
the dependent search result is returned exactly. -/
theorem C3_success_passthrough :
    (∀ (sf : String → String → String → ℕ → Json) (o d dd : String) (adults : ℕ),
      o ≠ "" → d ≠ "" → dd.length = 10 → dd.toList.count '-' = 2 →
      truthy (sf o d dd adults) = true →
      api_search_flights sf (some o) (some d) (some dd) adults = ⟨200, sf o d dd adults⟩)
  ∧ (∀ (sh : String → Json) (c : String), c ≠ "" → truthy (sh c) = true →
      api_search_hotels sh (some c) = ⟨200, sh c⟩)
  ∧ (∀ (gvr : String → String → String → Except PyExc Json) (o d n : String) (j : Json),
      o.length = 2 → d.length = 2 → n.length = 2 →
      gvr o d n = .ok j → truthy j = true →
      api_get_visa_requirements gvr (some o) (some d) (some n) = ⟨200, j⟩)
  ∧ (∀ (sl : String → Json) (gna : Json → Json → Json) (kw : String)
      (xs : List Json) (fs gfs : List (String × Json)) (lat lon : Json),
      kw ≠ "" → sl kw = .arr (.obj fs :: xs) →
      List.lookup "geoCode" fs = some (.obj gfs) → truthy (.obj gfs) = true →
      List.lookup "latitude" gfs = some lat → List.lookup "longitude" gfs = some lon →
      truthy lat = true → truthy lon = true → truthy (gna lat lon) = true →
      api_get_nearest_airports sl gna (some kw) = ⟨200, gna lat lon⟩)
  ∧ (∀ (sl : String → Json) (sa : Json → Json → Json) (kw : String)
      (xs : List Json) (fs gfs : List (String × Json)) (lat lon : Json),
      kw ≠ "" → sl kw = .arr (.obj fs :: xs) →
      List.lookup "geoCode" fs = some (.obj gfs) → truthy (.obj gfs) = true →
      List.lookup "latitude" gfs = some lat → List.lookup "longitude" gfs = some lon →
      truthy lat = true → truthy lon = true → truthy (sa lat lon) = true →
      api_search_activities sl sa (some kw) = ⟨200, sa lat lon⟩) := by
  refine ⟨?_, ?_, ?_, ?_, ?_⟩
  · intro sf o d dd adults ho hd hlen hcount hres
    have hdd : dd ≠ "" := by intro hc; subst hc; exact absurd hlen (by decide)
    have hcount2 : List.count '-' dd.data = 2 := hcount
    simp [api_search_flights, blankParam, ho, hd, hdd, hlen, hcount2, dispatch, hres]
  · intro sh c hc hres
    simp [api_search_hotels, blankParam, hc, dispatch, hres]
  · intro gvr o d n j h1 h2 h3 hj hres
    have ho : o ≠ "" := by intro hc; subst hc; exact absurd h1 (by decide)
    have hd : d ≠ "" := by intro hc; subst hc; exact absurd h2 (by decide)
    have hn : n ≠ "" := by intro hc; subst hc; exact absurd h3 (by decide)
    simp [api_get_visa_requirements, blankParam, ho, hd, hn, h1, h2, h3, hj,
      dispatch, hres]
  · intro sl gna kw xs fs gfs lat lon hkw hsl hlook hg hlat hlon htlat htlon hres
    simp [api_get_nearest_airports, nearest_airports_core, blankParam, hkw, hsl,
      truthy_arr_cons, index0, dictGet, subscript, hlook, hg, hlat, hlon,
      htlat, htlon, dispatch, hres]
  · intro sl sa kw xs fs gfs lat lon hkw hsl hlook hg hlat hlon htlat htlon hres
    simp [api_search_activities, activities_core, blankParam, hkw, hsl,
      truthy_arr_cons, index0, dictGet, subscript, hlook, hg, hlat, hlon,
      htlat, htlon, dispatch, hres]

/-- C3 witness: the Paris chained lookup of the spec — location search
resolving to geoCode latitude 48.8566, longitude 2.3522 and a non-empty
dependent result — yields 200 with exactly that result list; flights and
hotels pass their payloads through likewise. -/
theorem C3_success_passthrough_witness :
    api_search_activities slParis saEiffel (some "Paris") = ⟨200, eiffelList⟩ ∧
    api_search_flights sfOffers (some "JFK") (some "LHR") (some "2025-06-15") 1
      = ⟨200, flightsList⟩ ∧
    api_search_hotels shOffers (some "NYC") = ⟨200, hotelsList⟩ ∧
    api_get_visa_requirements gvrOk (some "US") (some "FR") (some "US")
      = ⟨200, visaDecision⟩ := by
  have h := C3_success_passthrough
  refine ⟨h.2.2.2.2 slParis saEiffel "Paris" [] [("name", .str "Paris"), ("geoCode", parisGeo)]
      [("latitude", .num (488566/10000)), ("longitude", .num (23522/10000))]
      (.num (488566/10000)) (.num (23522/10000)) (by decide) rfl rfl rfl rfl rfl
      truthy_parisLat truthy_parisLon rfl,
    h.1 sfOffers "JFK" "LHR" "2025-06-15" 1 (by decide) (by decide) (by decide)
      (by decide) rfl,
    h.2.1 shOffers "NYC" (by decide) rfl,
    h.2.2.1 gvrOk "US" "FR" "US" visaDecision (by decide) (by decide) (by decide) rfl rfl⟩

/-- C5: for every endpoint that requires parameters (flights,
nearest-airports, visa-requirements, hotels, cars, activities), a missing
required parameter (absent or empty) yields a 400 response whose JSON
body has an `error` field, and the response does not depend on the
upstream client function, i.e. no upstream client call is made. -/
theorem C5_missing_required_param_400
    (sf sf' : String → String → String → ℕ → Json)
    (sh sh' sc sc' sl sl' : String → Json)
    (gna gna' sa sa' : Json → Json → Json)
    (gvr gvr' : String → String → String → Except PyExc Json)
    (origin destination departure_date nationality keyword city_code : Option String)
    (adults : ℕ) :
    ((blankParam origin || blankParam destination || blankParam departure_date) = true →
      api_search_flights sf origin destination departure_date adults = ⟨400, flightsMissingBody⟩ ∧
      api_search_flights sf origin destination departure_date adults
        = api_search_flights sf' origin destination departure_date adults ∧
      flightsMissingBody.field "error" ≠ none)
  ∧ (blankParam keyword = true →
      api_get_nearest_airports sl gna keyword = ⟨400, airportsMissingBody⟩ ∧
      api_get_nearest_airports sl gna keyword = api_get_nearest_airports sl' gna' keyword ∧
      airportsMissingBody.field "error" ≠ none)
  ∧ ((blankParam origin || blankParam destination || blankParam nationality) = true →
      api_get_visa_requirements gvr origin destination nationality = ⟨400, visaMissingBody⟩ ∧
      api_get_visa_requirements gvr origin destination nationality
        = api_get_visa_requirements gvr' origin destination nationality ∧
      visaMissingBody.field "error" ≠ none)
  ∧ (blankParam city_code = true →
      api_search_hotels sh city_code = ⟨400, hotelsMissingBody⟩ ∧
      api_search_hotels sh city_code = api_search_hotels sh' city_code ∧
      hotelsMissingBody.field "error" ≠ none)
  ∧ (blankParam city_code = true →
      api_search_cars sc city_code = ⟨400, carsMissingBody⟩ ∧
      api_search_cars sc city_code = api_search_cars sc' city_code ∧
      carsMissingBody.field "error" ≠ none)
  ∧ (blankParam keyword = true →
      api_search_activities sl sa keyword = ⟨400, activitiesMissingBody⟩ ∧
      api_search_activities sl sa keyword = api_search_activities sl' sa' keyword ∧
      activitiesMissingBody.field "error" ≠ none) := by
  refine ⟨?_, ?_, ?_, ?_, ?_, ?_⟩ <;> intro h <;>
    simp [api_search_flights, api_get_nearest_airports, nearest_airports_core,
      api_get_visa_requirements, api_search_hotels, api_search_cars,
      api_search_activities, activities_core, h, Json.field,
      flightsMissingBody, airportsMissingBody, visaMissingBody,
      hotelsMissingBody, carsMissingBody, activitiesMissingBody]

/-- C5 witness: concrete missing-parameter requests hit the 400 branch. -/
theorem C5_missing_required_param_400_witness :
    api_search_flights sfOffers none (some "LHR") (some "2025-06-15") 1
      = ⟨400, flightsMissingBody⟩ ∧
    api_search_activities slParis saEiffel (some "") = ⟨400, activitiesMissingBody⟩ := by
  have h := C5_missing_required_param_400 sfOffers sfNull shOffers shNull shNull shNull
    slParis slNull gnaCdg gnaNull saEiffel gnaNull gvrOk gvrNull
    none (some "LHR") (some "2025-06-15") (some "US") (some "") (some "NYC") 1
  exact ⟨(h.1 rfl).1, ((h.2.2.2.2.2) rfl).1⟩

/-- C8: on /api/visa-requirements with all three parameters present,
any code whose length differs from 2 yields a 400 without any visa client
call; when all three codes have length exactly 2, the response is exactly
the dispatch of `get_visa_requirements`. -/
theorem C8_visa_code_length
    (gvr gvr' : String → String → String → Except PyExc Json) (o d n : String) :
    (¬(o.length = 2 ∧ d.length = 2 ∧ n.length = 2) →
      (api_get_visa_requirements gvr (some o) (some d) (some n)).status = 400 ∧
      api_get_visa_requirements gvr (some o) (some d) (some n)
        = api_get_visa_requirements gvr' (some o) (some d) (some n))
  ∧ (o.length = 2 → d.length = 2 → n.length = 2 →
      api_get_visa_requirements gvr (some o) (some d) (some n)
        = match gvr o d n with
          | .ok visa_info => dispatch visa_info 500 visaNoResultBody
          | .error .valueError => ⟨500, visaConfigErrorBody⟩
          | .error _ => ⟨500, internalErrorBody⟩) := by
  constructor
  · intro hlen
    by_cases hb : (blankParam (some o) || blankParam (some d) || blankParam (some n)) = true
    · simp [api_get_visa_requirements, hb]
    · have hlen2 : (o.length == 2 && d.length == 2 && n.length == 2) = false := by
        cases hx : (o.length == 2 && d.length == 2 && n.length == 2)
        · rfl
        · rw [Bool.and_eq_true, Bool.and_eq_true, beq_iff_eq, beq_iff_eq, beq_iff_eq] at hx
          exact absurd ⟨hx.1.1, hx.1.2, hx.2⟩ hlen
      simp [api_get_visa_requirements, Bool.eq_false_iff.mpr hb, hlen2]
  · intro h1 h2 h3
    have ho : o ≠ "" := by intro hc; subst hc; exact absurd h1 (by decide)
    have hd : d ≠ "" := by intro hc; subst hc; exact absurd h2 (by decide)
    have hn : n ≠ "" := by intro hc; subst hc; exact absurd h3 (by decide)
    simp [api_get_visa_requirements, blankParam, ho, hd, hn, h1, h2, h3]

/-- C8 witness: `"USA"` is rejected with 400; three two-letter codes pass
validation and the visa client result is dispatched. -/
theorem C8_visa_code_length_witness :
    (api_get_visa_requirements gvrOk (some "USA") (some "FR") (some "US")).status = 400 ∧
    api_get_visa_requirements gvrOk (some "US") (some "FR") (some "US")
      = ⟨200, visaDecision⟩ := by
  refine ⟨((C8_visa_code_length gvrOk gvrNull "USA" "FR" "US").1 (by decide)).1, ?_⟩
  have h := (C8_visa_code_length gvrOk gvrNull "US" "FR" "US").2 rfl rfl rfl
  rw [h]; rfl

/-- C4: `get_visa_requirements` raises its configuration fault
(`ValueError`) iff `SHERPA_API_KEY` is unset/empty; the key is checked
before any network call (the raising case does not depend on the Sherpa
service) and otherwise the client returns a payload or the no-data
signal, never raising; when the fault is raised, the endpoint with valid
parameters responds 500 with the body whose `error` field is
`Configuration error`. -/
theorem C4_visa_config_fault
    (env : Env) (post post' : SherpaOracle) (o d n : String) :
    ((∃ e, get_visa_requirements env post o d n = .error e) ↔
      envMissing env "SHERPA_API_KEY" = true)
  ∧ (∀ e, get_visa_requirements env post o d n = .error e → e = .valueError)
  ∧ (envMissing env "SHERPA_API_KEY" = true →
      get_visa_requirements env post o d n = get_visa_requirements env post' o d n)
  ∧ (envMissing env "SHERPA_API_KEY" = false →
      ∃ j, get_visa_requirements env post o d n = .ok j)
  ∧ (envMissing env "SHERPA_API_KEY" = true →
      o.length = 2 → d.length = 2 → n.length = 2 →
      api_get_visa_requirements (get_visa_requirements env post) (some o) (some d) (some n)
        = ⟨500, visaConfigErrorBody⟩ ∧
      visaConfigErrorBody.field "error" = some (.str "Configuration error")) := by
  refine ⟨?_, ?_, ?_, ?_, ?_⟩
  · constructor
    · rintro ⟨e, he⟩
      cases hk : envMissing env "SHERPA_API_KEY"
      · rcases hp : post (sherpaPayload o d n) with j | er <;>
          simp [get_visa_requirements, hk, hp] at he
      · rfl
    · intro hk
      exact ⟨.valueError, by simp [get_visa_requirements, hk]⟩
  · intro e he
    cases hk : envMissing env "SHERPA_API_KEY"
    · rcases hp : post (sherpaPayload o d n) with j | er <;>
        simp [get_visa_requirements, hk, hp] at he
    · simp [get_visa_requirements, hk] at he
      exact he.symm
  · intro hk
    simp [get_visa_requirements, hk]
  · intro hk
    rcases hp : post (sherpaPayload o d n) with e | j
    · exact ⟨.null, by simp [get_visa_requirements, hk, hp]⟩
    · exact ⟨j, by simp [get_visa_requirements, hk, hp]⟩
  · intro hk h1 h2 h3
    have ho : o ≠ "" := by intro hc; subst hc; exact absurd h1 (by decide)
    have hd : d ≠ "" := by intro hc; subst hc; exact absurd h2 (by decide)
    have hn : n ≠ "" := by intro hc; subst hc; exact absurd h3 (by decide)
    have hgvr : get_visa_requirements env post o d n = .error .valueError := by
      simp [get_visa_requirements, hk]
    refine ⟨?_, rfl⟩
    simp [api_get_visa_requirements, blankParam, ho, hd, hn, h1, h2, h3, hgvr]

/-- C4 witness: an environment without the Sherpa key yields the
configuration-error 500 on a valid request; with the key set the client
returns the decision without raising. -/
theorem C4_visa_config_fault_witness :
    api_get_visa_requirements
        (get_visa_requirements envEmpty (sherpaOracleConst visaDecision))
        (some "US") (some "FR") (some "US")
      = ⟨500, visaConfigErrorBody⟩ ∧
    get_visa_requirements envAll (sherpaOracleConst visaDecision) "US" "FR" "US"
      = .ok visaDecision := by
  refine ⟨((C4_visa_config_fault envEmpty (sherpaOracleConst visaDecision)
      (sherpaOracleConst .null) "US" "FR" "US").2.2.2.2
      rfl (by decide) (by decide) (by decide)).1, rfl⟩

/-- C6 counterexample: the hotels endpoint answers a missing city_code
with a 400 body holding only an error and a message string — no
enumerated `required`/`optional` parameter-name lists — refuting the
claim for "every endpoint". -/
theorem C6_enumerated_params_counterexample :
    (api_search_hotels shOffers none).status = 400 ∧
    (api_search_hotels shOffers none).body.field "required" = none ∧
    (api_search_hotels shOffers none).body.field "optional" = none :=
  ⟨rfl, rfl, rfl⟩

/-- C6 amended: only the flights endpoint enumerates both required and
optional parameter names in its 400 body; the visa endpoint enumerates
the required names only; the single-parameter endpoints
(nearest-airports, hotels, cars, activities) return a 400 whose error
string names the missing parameter but carry no enumerated list. -/
theorem C6_param_enumeration_amended
    (sf : String → String → String → ℕ → Json)
    (sh sc sl : String → Json) (gna sa : Json → Json → Json)
    (gvr : String → String → String → Except PyExc Json)
    (origin destination departure_date nationality keyword city_code : Option String)
    (adults : ℕ) :
    ((blankParam origin || blankParam destination || blankParam departure_date) = true →
      (api_search_flights sf origin destination departure_date adults).body.field "required"
        = some (.arr [.str "origin", .str "destination", .str "departure_date"]) ∧
      (api_search_flights sf origin destination departure_date adults).body.field "optional"
        = some (.arr [.str "adults"]))
  ∧ ((blankParam origin || blankParam destination || blankParam nationality) = true →
      (api_get_visa_requirements gvr origin destination nationality).body.field "required"
        = some (.arr [.str "origin", .str "destination", .str "nationality"]) ∧
      (api_get_visa_requirements gvr origin destination nationality).body.field "optional"
        = none)
  ∧ (blankParam keyword = true →
      (api_get_nearest_airports sl gna keyword).body.field "error"
        = some (.str "Missing required parameter: keyword") ∧
      (api_get_nearest_airports sl gna keyword).body.field "required" = none)
  ∧ (blankParam city_code = true →
      (api_search_hotels sh city_code).body.field "error"
        = some (.str "Missing required parameter: city_code") ∧
      (api_search_hotels sh city_code).body.field "required" = none)
  ∧ (blankParam city_code = true →
      (api_search_cars sc city_code).body.field "error"
        = some (.str "Missing required parameter: city_code") ∧
      (api_search_cars sc city_code).body.field "required" = none)
  ∧ (blankParam keyword = true →
      (api_search_activities sl sa keyword).body.field "error"
        = some (.str "Missing required parameter: keyword") ∧
      (api_search_activities sl sa keyword).body.field "required" = none) := by
  refine ⟨?_, ?_, ?_, ?_, ?_, ?_⟩ <;> intro h <;>
    simp [api_search_flights, api_get_visa_requirements, api_get_nearest_airports,
      nearest_airports_core, api_search_hotels, api_search_cars,
      api_search_activities, activities_core, h, Json.field, List.lookup,
      flightsMissingBody, visaMissingBody, airportsMissingBody,
      hotelsMissingBody, carsMissingBody, activitiesMissingBody]

/-- C6 amended witness: concrete missing-parameter requests. -/
theorem C6_param_enumeration_amended_witness :
    (api_search_flights sfOffers none none none 1).body.field "required"
      = some (.arr [.str "origin", .str "destination", .str "departure_date"]) ∧
    (api_get_nearest_airports slParis gnaCdg none).body.field "error"
      = some (.str "Missing required parameter: keyword") := by
  have h := C6_param_enumeration_amended sfOffers shOffers shNull slParis gnaCdg saEiffel
    gvrOk none none none none none none 1
  exact ⟨(h.1 rfl).1, (h.2.2.1 rfl).1⟩

/-- C7: codes are uppercased before transmission — the flight call
carries the uppercased IATA codes, the hotel call the uppercased city
code, the visa payload the three uppercased country codes — so two
requests that differ only in the casing of these codes issue identical
upstream calls and the client functions return identical results. -/
theorem C7_uppercase_codes
    (env : Env) (oracle : AmOracle) (post : SherpaOracle)
    (o1 o2 d1 d2 n1 n2 c1 c2 dd : String) (adults : ℕ)
    (ho : (pyUpper o1) = (pyUpper o2)) (hd : (pyUpper d1) = (pyUpper d2))
    (hn : (pyUpper n1) = (pyUpper n2)) (hc : (pyUpper c1) = (pyUpper c2)) :
    (flightOffersCall o1 d1 dd adults).params.lookup "originLocationCode"
        = some (.str (pyUpper o1))
  ∧ (flightOffersCall o1 d1 dd adults).params.lookup "destinationLocationCode"
        = some (.str (pyUpper d1))
  ∧ (hotelOffersCall c1).params.lookup "cityCode" = some (.str (pyUpper c1))
  ∧ sherpaPayload o1 d1 n1
        = ⟨(pyUpper o1), (pyUpper d1), (pyUpper n1)⟩
  ∧ flightOffersCall o1 d1 dd adults = flightOffersCall o2 d2 dd adults
  ∧ hotelOffersCall c1 = hotelOffersCall c2
  ∧ sherpaPayload o1 d1 n1 = sherpaPayload o2 d2 n2
  ∧ search_flights env oracle o1 d1 dd adults = search_flights env oracle o2 d2 dd adults
  ∧ search_hotels env oracle c1 = search_hotels env oracle c2
  ∧ get_visa_requirements env post o1 d1 n1 = get_visa_requirements env post o2 d2 n2 := by
  refine ⟨?_, ?_, ?_, ?_, ?_, ?_, ?_, ?_, ?_, ?_⟩ <;>
    simp [flightOffersCall, hotelOffersCall, sherpaPayload, search_flights,
      search_hotels, get_visa_requirements, List.lookup, ho, hd, hn, hc]

/-- C7 witness: lowercase and uppercase spellings of the same codes give
the same upstream calls and results. -/
theorem C7_uppercase_codes_witness :
    flightOffersCall "jfk" "lhr" "2025-06-15" 1 = flightOffersCall "JFK" "LHR" "2025-06-15" 1 ∧
    get_visa_requirements envAll (sherpaOracleConst visaDecision) "us" "fr" "gb"
      = get_visa_requirements envAll (sherpaOracleConst visaDecision) "US" "FR" "GB" := by
  have h := C7_uppercase_codes envAll (amOracleConst flightsList)
    (sherpaOracleConst visaDecision) "jfk" "JFK" "lhr" "LHR" "gb" "GB" "nyc" "NYC"
    "2025-06-15" 1 (by decide) (by decide) (by decide) (by decide)
  have h2 := C7_uppercase_codes envAll (amOracleConst flightsList)
    (sherpaOracleConst visaDecision) "us" "US" "fr" "FR" "gb" "GB" "nyc" "NYC"
    "2025-06-15" 1 (by decide) (by decide) (by decide) (by decide)
  exact ⟨h.2.2.2.2.1, h2.2.2.2.2.2.2.2.2.2⟩

/-- C10 counterexample: with the Amadeus credentials absent, the
nearest-airports endpoint responds 404 (Could not find location), not
500, because the failed location search is indistinguishable from an
empty match list; this refutes the claim that all four travel endpoints
then respond 500 with a could-not-retrieve message. -/
theorem C10_missing_creds_counterexample :
    amadeusCredsMissing envEmpty = true ∧
    (api_get_nearest_airports (search_location envEmpty (amOracleConst cdgList))
        (get_nearest_airports envEmpty (amOracleConst cdgList)) (some "Paris")).status
      = 404 ∧
    (api_get_nearest_airports (search_location envEmpty (amOracleConst cdgList))
        (get_nearest_airports envEmpty (amOracleConst cdgList)) (some "Paris")).status
      ≠ 500 :=
  ⟨rfl, rfl, by decide⟩

/-- C10 amended: every Travel Client operation converts the missing
Amadeus credentials into the no-data signal (`None`) for any provider
behaviour, so: the flight and hotel endpoints respond 500 with their
generic could-not-retrieve bodies, the nearest-airport and activity
endpoints respond 404 with the Could-not-find-location body, and none
of these bodies carries the `Configuration error` message, which exists
only on the visa path. -/
theorem C10_missing_creds_amended
    (env : Env) (oracle : AmOracle) (hcreds : amadeusCredsMissing env = true)
    (o d dd c kw : String) (adults : ℕ) (lat lon : Json)
    (ho : o ≠ "") (hd : d ≠ "") (hlen : dd.length = 10)
    (hcount : dd.toList.count '-' = 2) (hc : c ≠ "") (hkw : kw ≠ "") :
    (search_flights env oracle o d dd adults = .null
      ∧ get_nearest_airports env oracle lat lon = .null
      ∧ search_hotels env oracle c = .null
      ∧ search_activities env oracle lat lon = .null
      ∧ search_location env oracle kw = .null)
  ∧ (api_search_flights (search_flights env oracle) (some o) (some d) (some dd) adults
        = ⟨500, flightsNoResultBody⟩
      ∧ api_search_hotels (search_hotels env oracle) (some c) = ⟨500, hotelsNoResultBody c⟩)
  ∧ (api_get_nearest_airports (search_location env oracle)
        (get_nearest_airports env oracle) (some kw) = ⟨404, locationNotFoundBody kw⟩
      ∧ api_search_activities (search_location env oracle)
        (search_activities env oracle) (some kw) = ⟨404, locationNotFoundBody kw⟩)
  ∧ (flightsNoResultBody.field "error" ≠ some (.str "Configuration error")
      ∧ (hotelsNoResultBody c).field "error" ≠ some (.str "Configuration error")
      ∧ (locationNotFoundBody kw).field "error" ≠ some (.str "Configuration error")) := by
  have hsf : search_flights env oracle o d dd adults = .null := by
    simp [search_flights, hcreds]
  have hsh : search_hotels env oracle c = .null := by
    simp [search_hotels, hcreds]
  have hsl : search_location env oracle kw = .null := by
    simp [search_location, hcreds]
  have hdd : dd ≠ "" := by intro hx; subst hx; exact absurd hlen (by decide)
  have hcount2 : List.count '-' dd.data = 2 := hcount
  refine ⟨⟨hsf, by simp [get_nearest_airports, hcreds], hsh,
      by simp [search_activities, hcreds], hsl⟩, ⟨?_, ?_⟩, ⟨?_, ?_⟩, ?_, ?_, ?_⟩
  · simp [api_search_flights, blankParam, ho, hd, hdd, hlen, hcount2, dispatch, hsf, truthy]
  · simp [api_search_hotels, blankParam, hc, dispatch, hsh, truthy]
  · simp [api_get_nearest_airports, nearest_airports_core, blankParam, hkw, hsl, truthy]
  · simp [api_search_activities, activities_core, blankParam, hkw, hsl, truthy]
  · simp [Json.field, flightsNoResultBody]
  · simp [Json.field, hotelsNoResultBody]
  · simp [Json.field, locationNotFoundBody]

/-- C10 amended witness: concrete requests against an environment with
no Amadeus credentials. -/
theorem C10_missing_creds_amended_witness :
    api_search_flights (search_flights envEmpty (amOracleConst flightsList))
        (some "JFK") (some "LHR") (some "2025-06-15") 1 = ⟨500, flightsNoResultBody⟩ ∧
    api_search_activities (search_location envEmpty (amOracleConst eiffelList))
        (search_activities envEmpty (amOracleConst eiffelList)) (some "Paris")
      = ⟨404, locationNotFoundBody "Paris"⟩ := by
  have h := C10_missing_creds_amended envEmpty (amOracleConst flightsList) rfl
    "JFK" "LHR" "2025-06-15" "NYC" "Paris" 1 .null .null
    (by decide) (by decide) (by decide) (by decide) (by decide) (by decide)
  have h2 := C10_missing_creds_amended envEmpty (amOracleConst eiffelList) rfl
    "JFK" "LHR" "2025-06-15" "NYC" "Paris" 1 .null .null
    (by decide) (by decide) (by decide) (by decide) (by decide) (by decide)
  exact ⟨h.2.1.1, h2.2.2.1.2⟩

/-- C9: /api/cars responds 400 when city_code is missing or empty, and
501 for every supplied city code, because `search_cars` always returns
the no-data signal. -/
theorem C9_cars_always_501 (city : String) (h : city ≠ "") :
    (∀ c : Option String, blankParam c = true →
      api_search_cars search_cars c = ⟨400, carsMissingBody⟩)
  ∧ api_search_cars search_cars (some city) = ⟨501, carsNotAvailableBody⟩ := by
  constructor
  · intro c hc; simp [api_search_cars, hc]
  · simp [api_search_cars, blankParam, h, search_cars, dispatch, truthy]

/-- C9 witness: concrete car searches. -/
theorem C9_cars_always_501_witness :
    api_search_cars search_cars (some "NYC") = ⟨501, carsNotAvailableBody⟩ ∧
    api_search_cars search_cars none = ⟨400, carsMissingBody⟩ := by
  have h := C9_cars_always_501 "NYC" (by decide)
  exact ⟨h.2, h.1 none rfl⟩

end TravelAgent
